import Mathlib

/-!
Verification of the Curve Control Home Assistant integration
(`custom_components/curve_control`): a shallow embedding of the
optimization coordinator (`__init__.py`) and the data collector
(`data_collector.py`), with theorems settling the specified behavioural
properties.

Conventions of the embedding:
* Python floats are modelled as rationals (`ℚ`); all the constants
  involved (1.4, 2, 6, 12, temperatures) are exact decimals.
* `aiohttp` calls are modelled by an explicit outcome parameter
  (transport error / HTTP status / parsed body); a method that can raise
  returns an `Except` value, and the state it returns is the state of the
  object at the point the exception propagates (no mutation after the
  raise point is visible, exactly as in the Python methods, which assign
  to `self` only after validation).
* `datetime.strptime(s, "%H:%M")` is modelled by `parseHHMM`, which
  reproduces CPython's `_strptime` regex fragments
  `%H = (2[0-3]|[0-1]\d|\d)` and `%M = ([0-5]\d|\d)` with the whole
  string consumed.
-/

namespace CurveControl

/-! ## Constants (from `const.py`) -/

def DEADBAND_OFFSET : ℚ := 7/5

def INTERVALS_PER_DAY : Nat := 48

def HEATING_RATE_30MIN : ℚ := 125/100

def COOLING_RATE_30MIN : ℚ := -19335/10000

/-! ## Time parsing (`_time_to_30min_index`, `__init__.py` lines 517-527) -/

/-- Numeric value of a decimal digit character. -/
def dval (c : Char) : Nat := c.toNat - 48

/-- CPython `_strptime` fragment for `%H`: `2[0-3]` or `[0-1]` followed by a
digit, or a single digit; ordered alternatives, returning the value and the
unconsumed characters. -/
def matchHour : List Char → Option (Nat × List Char)
  | c1 :: c2 :: rest =>
      if c1 = '2' ∧ '0' ≤ c2 ∧ c2 ≤ '3' then some (20 + dval c2, rest)
      else if (c1 = '0' ∨ c1 = '1') ∧ c2.isDigit then
        some (dval c1 * 10 + dval c2, rest)
      else if c1.isDigit then some (dval c1, c2 :: rest)
      else none
  | [c1] => if c1.isDigit then some (dval c1, []) else none
  | [] => none

/-- CPython `_strptime` fragment for `%M`: `[0-5]` followed by a digit, or a
single digit; ordered alternatives. -/
def matchMin : List Char → Option (Nat × List Char)
  | c1 :: c2 :: rest =>
      if ('0' ≤ c1 ∧ c1 ≤ '5') ∧ c2.isDigit then
        some (dval c1 * 10 + dval c2, rest)
      else if c1.isDigit then some (dval c1, c2 :: rest)
      else none
  | [c1] => if c1.isDigit then some (dval c1, []) else none
  | [] => none

/-- `datetime.strptime(s, "%H:%M")`: hour, colon, minute, end of input. -/
def parseHHMM (s : String) : Option (Nat × Nat) :=
  match matchHour s.toList with
  | some (h, ':' :: rest) =>
      match matchMin rest with
      | some (m, []) => some (h, m)
      | _ => none
  | _ => none

/-- `_time_to_30min_index`: truncate to five characters, parse as `HH:MM`,
return `(hour*60+minute) // 30`; any parse failure falls back to 16
(8:00 AM). -/
def timeTo30MinIndex (timeStr : String) : Nat :=
  match parseHHMM (timeStr.take 5) with
  | some (h, m) => (h * 60 + m) / 30
  | none => 16

/-! ## Schedule building (`_build_30min_temperature_schedule`,
`_calculate_savings_offset`, `__init__.py` lines 481-532) -/

/-- The coordinator's `self.config` dictionary. -/
structure Config where
  homeSize : ℚ
  homeTemperature : ℚ
  location : Int
  timeAway : String
  timeHome : String
  savingsLevel : Int
deriving DecidableEq, Repr

/-- `_calculate_savings_offset`: `{1: 2, 2: 6, 3: 12}.get(level, 6)`. -/
def calculateSavingsOffset (savingsLevel : Int) : ℚ :=
  if savingsLevel = 1 then 2
  else if savingsLevel = 2 then 6
  else if savingsLevel = 3 then 12
  else 6

/-- The dictionary built by `_build_30min_temperature_schedule` (and the shape
of a custom schedule supplied by the frontend). -/
structure TemperatureSchedule where
  highTemperatures : List ℚ
  lowTemperatures : List ℚ
  intervalMinutes : Nat
  totalIntervals : Nat
deriving DecidableEq, Repr

/-- `_build_30min_temperature_schedule`: slots in the inclusive range
`[away_interval, home_interval]` get the widened (savings) envelope, all
other slots the deadband-only envelope. -/
def build30MinTemperatureSchedule (config : Config) : TemperatureSchedule :=
  let base := config.homeTemperature
  let awayInterval := timeTo30MinIndex config.timeAway
  let homeInterval := timeTo30MinIndex config.timeHome
  let offset := calculateSavingsOffset config.savingsLevel
  { highTemperatures := (List.range INTERVALS_PER_DAY).map fun i =>
      if awayInterval ≤ i ∧ i ≤ homeInterval then base + offset + DEADBAND_OFFSET
      else base + DEADBAND_OFFSET
    lowTemperatures := (List.range INTERVALS_PER_DAY).map fun i =>
      if awayInterval ≤ i ∧ i ≤ homeInterval then base - offset - DEADBAND_OFFSET
      else base - DEADBAND_OFFSET
    intervalMinutes := 30
    totalIntervals := INTERVALS_PER_DAY }

/-! ## Coordinator state (`CurveControlCoordinator.__init__`, lines 193-263) -/

/-- A JSON value inside the optimizer response arrays: the raw
`HourlyTemperature` array carries both numbers and nested arrays (the
envelope echoes at positions 1 and 2). -/
inductive JValue where
  | num (q : ℚ)
  | arr (xs : List ℚ)
deriving DecidableEq, Repr

/-- The parsed JSON body of an optimizer (`/generate_schedule`) response:
either not a mapping (any other JSON value), or a mapping whose
`HourlyTemperature` and `bestTempActual` keys may each be absent
(`data.get(key, [])` then yields `[]`). -/
inductive ResponseBody where
  | notDict
  | dict (hourlyTemperature : Option (List JValue)) (bestTempActual : Option (List JValue))
deriving DecidableEq, Repr

/-- The mutable coordinator fields the embedded operations read or write. -/
structure CoordinatorState where
  config : Config
  optimization_results : Option ResponseBody
  schedule_data : Option (List JValue)
  daily_schedule : Option (List JValue)
  custom_temperature_schedule : Option TemperatureSchedule
  optimization_mode : String
  last_update_time : ℚ
  user_id : Option String
  auth_token : Option String
  heat_up_rate : ℚ
  cool_down_rate : ℚ
  backend_heating_rate : Option ℚ
  backend_cooling_rate : Option ℚ
  backend_natural_rate : Option ℚ
deriving DecidableEq, Repr

/-! ## Thermal-rate fetch (`_async_fetch_thermal_rates_from_backend`,
lines 288-334) -/

/-- Outcome of the `calculate-rates` call, collapsed to what the method
distinguishes: any non-200 status, transport error, or body without a truthy
`success`/`thermal_rates` is swallowed (`failed`); otherwise the three
optional rates of the payload. -/
inductive RatesOutcome where
  | failed
  | fetched (heating cooling natural : Option ℚ)
deriving DecidableEq, Repr

/-- `_async_fetch_thermal_rates_from_backend`: no-op when unauthenticated;
on a successful fetch overwrite the three backend rates and update
`heat_up_rate`/`cool_down_rate` only for rates that are not `None`; every
failure is swallowed, leaving the state unchanged. -/
def fetchThermalRatesFromBackend (st : CoordinatorState) (outcome : RatesOutcome) :
    CoordinatorState :=
  if st.user_id = none ∨ st.auth_token = none then st
  else
    match outcome with
    | .failed => st
    | .fetched h c n =>
        { st with
          backend_heating_rate := h
          backend_cooling_rate := c
          backend_natural_rate := n
          heat_up_rate := h.getD st.heat_up_rate
          cool_down_rate := c.getD st.cool_down_rate }

/-! ## Refresh (`_async_update_data`, lines 336-414) -/

/-- Outcome of the `POST /generate_schedule` call: transport error
(`aiohttp.ClientError`, including timeout), a status rejected by
`raise_for_status()`, or a parsed JSON body. -/
inductive OptimizerOutcome where
  | transportError
  | httpError
  | ok (body : ResponseBody)
deriving DecidableEq, Repr

/-- The request body assembled for the optimizer: the config fields plus the
schedule envelope, rates, mode, and `naturalRate` only when a learned value
is cached. -/
structure OptimizerRequest where
  config : Config
  temperatureSchedule : TemperatureSchedule
  heatUpRate : ℚ
  coolDownRate : ℚ
  mode : String
  naturalRate : Option ℚ
deriving DecidableEq, Repr

/-- Envelope selection inside `_async_update_data` (lines 354-362): the
custom schedule if one is stored, else the basic schedule built from the
config. -/
def envelopeForRequest (st : CoordinatorState) : TemperatureSchedule :=
  match st.custom_temperature_schedule with
  | some c => c
  | none => build30MinTemperatureSchedule st.config

/-- `_async_update_data`: fetch thermal rates (failures swallowed), build or
reuse the envelope, call the optimizer; on any failure raise `UpdateFailed`
(modelled as `Except.error`) with the state as mutated so far; on a mapping
body store the results and the two extracted sequences. Returns the state at
exit, the request that was sent, and the result. -/
def asyncUpdateData (st : CoordinatorState) (ratesOutcome : RatesOutcome)
    (optOutcome : OptimizerOutcome) :
    CoordinatorState × OptimizerRequest × Except String ResponseBody :=
  let st1 := fetchThermalRatesFromBackend st ratesOutcome
  let scheduleData := envelopeForRequest st1
  let req : OptimizerRequest :=
    { config := st1.config
      temperatureSchedule := scheduleData
      heatUpRate := st1.heat_up_rate
      coolDownRate := st1.cool_down_rate
      mode := st1.optimization_mode
      naturalRate := st1.backend_natural_rate }
  match optOutcome with
  | .transportError => (st1, req, .error "Error communicating with backend")
  | .httpError => (st1, req, .error "Error communicating with backend")
  | .ok .notDict =>
      (st1, req, .error "Unexpected error: Backend returned invalid data format")
  | .ok (.dict hourly best) =>
      ({ st1 with
          optimization_results := some (.dict hourly best)
          schedule_data := some (hourly.getD [])
          daily_schedule := some (best.getD []) },
        req, .ok (.dict hourly best))

/-! ## Debounced preference update (`async_update_schedule`, lines 416-474) -/

/-- The service-call payload: each recognized key may be present or absent
(`"key" in data`); unrecognized keys are ignored by the method and so not
modelled. -/
structure UpdatePatch where
  homeSize : Option ℚ
  homeTemperature : Option ℚ
  location : Option Int
  savingsLevel : Option Int
  timeAway : Option String
  timeHome : Option String
  optimizationMode : Option String
  temperatureSchedule : Option TemperatureSchedule
deriving DecidableEq, Repr

/-- The empty patch (no recognized key present). -/
def emptyPatch : UpdatePatch :=
  { homeSize := none, homeTemperature := none, location := none
    savingsLevel := none, timeAway := none, timeHome := none
    optimizationMode := none, temperatureSchedule := none }

deriving instance DecidableEq for Except

/-- Result of a call to `async_update_schedule`: dropped by the debounce
gate, or admitted, carrying the refresh outcome. -/
inductive UpdateScheduleResult where
  | rejected
  | admitted (refresh : Except String ResponseBody)
deriving DecidableEq, Repr

/-- The config merge of lines 431-444: present keys overwrite; time strings
are truncated to their first five characters (`str(x)[:5]`), which never
raises. -/
def applyPatch (cfg : Config) (d : UpdatePatch) : Config :=
  { cfg with
    homeSize := d.homeSize.getD cfg.homeSize
    homeTemperature := d.homeTemperature.getD cfg.homeTemperature
    location := d.location.getD cfg.location
    savingsLevel := d.savingsLevel.getD cfg.savingsLevel
    timeAway := (d.timeAway.map fun s => s.take 5).getD cfg.timeAway
    timeHome := (d.timeHome.map fun s => s.take 5).getD cfg.timeHome }

/-- `async_update_schedule` (with `save_to_db=False`): the debounce gate
drops the call and leaves all state untouched when
`now - last_update_time < 2`; an admitted call records `now`, merges the
patch, replaces the custom schedule with the patch's `temperatureSchedule`
(clearing it when the key is absent), and runs the refresh. -/
def asyncUpdateSchedule (st : CoordinatorState) (d : UpdatePatch) (now : ℚ)
    (ratesOutcome : RatesOutcome) (optOutcome : OptimizerOutcome) :
    CoordinatorState × UpdateScheduleResult :=
  if now - st.last_update_time < 2 then (st, .rejected)
  else
    let st2 : CoordinatorState :=
      { st with
        last_update_time := now
        config := applyPatch st.config d
        optimization_mode := d.optimizationMode.getD st.optimization_mode
        custom_temperature_schedule := d.temperatureSchedule }
    let r := asyncUpdateData st2 ratesOutcome optOutcome
    (r.1, .admitted r.2.2)

/-! ## Schedule bounds accessor (`get_schedule_bounds`, lines 553-558) -/

/-- `get_schedule_bounds`: `None` when no `schedule_data` is stored, it is
falsy, or it has fewer than three elements; otherwise the pair at positions
1 and 2. -/
def getScheduleBounds (st : CoordinatorState) : Option (JValue × JValue) :=
  match st.schedule_data with
  | some (_ :: b :: c :: _) => some (b, c)
  | _ => none

/-! ## Data collector (`data_collector.py`) -/

/-- A single sensor reading, as assembled by `_collect_reading`
(lines 156-167). -/
structure Reading where
  timestamp : String
  indoor_temp : ℚ
  indoor_humidity : Option ℚ
  hvac_mode : Option String
  hvac_state : String
  fan_mode : Option String
  fan_state : Option String
  target_temp : ℚ
  optimization_mode : String
deriving DecidableEq, Repr

/-- A logged user action, as appended by `log_user_input` (lines 283-291);
the service-call payload dict is modelled as a key/value list. -/
structure UserInput where
  timestamp : String
  service : String
  data : List (String × String)
deriving DecidableEq, Repr

/-- The collector's mutable fields relevant to uploads. -/
structure CollectorState where
  user_id : String
  pending_readings : List Reading
  user_inputs_today : List UserInput
deriving DecidableEq, Repr

/-- Outcome of a plain POST: transport error (any exception) or an HTTP
status code. -/
inductive HttpOutcome where
  | transportError
  | status (code : Nat)
deriving DecidableEq, Repr

/-- The `sensor-data` request body (line 182). -/
structure SensorBatchRequest where
  user_id : String
  readings : List Reading
deriving DecidableEq, Repr

/-- `_send_sensor_batch` (lines 174-200): return immediately on an empty
buffer without issuing a request; otherwise post the whole buffer in one
request and clear it only on status 200; any other status or exception is
logged and leaves the buffer intact. Returns the new state and the request
issued, if any. -/
def sendSensorBatch (st : CollectorState) (outcome : HttpOutcome) :
    CollectorState × Option SensorBatchRequest :=
  if st.pending_readings.isEmpty then (st, none)
  else
    let req : SensorBatchRequest :=
      { user_id := st.user_id, readings := st.pending_readings }
    match outcome with
    | .transportError => (st, some req)
    | .status code =>
        if code = 200 then ({ st with pending_readings := [] }, some req)
        else (st, some req)

/-- Outcome of the `daily-summary` POST: transport error, or a status code
together with (for a 200 body) the `thermal_rates` payload, a key/value
list defaulting to empty. -/
inductive SummaryOutcome where
  | transportError
  | status (code : Nat) (thermal_rates : List (String × ℚ))
deriving DecidableEq, Repr

/-- `_send_daily_summary` (lines 202-281): flush the pending buffer first if
it is nonempty, then post the summary; on status 200 return the body's
thermal rates, otherwise `none`. Both branches return before the
`user_inputs_today.clear()` on line 277, so the logged-actions list is never
cleared by this method. -/
def sendDailySummary (st : CollectorState) (flushOutcome : HttpOutcome)
    (summaryOutcome : SummaryOutcome) :
    CollectorState × Option (List (String × ℚ)) :=
  let st1 :=
    if st.pending_readings.isEmpty then st
    else (sendSensorBatch st flushOutcome).1
  match summaryOutcome with
  | .transportError => (st1, none)
  | .status code thermal =>
      if code = 200 then (st1, some thermal) else (st1, none)

/-! ## Fixtures for concrete runs -/

/-- The configuration of the spec's worked example: `timeAway="08:00"`,
`timeHome="17:00"`, base 72, savings level 2. -/
def exampleConfig : Config :=
  { homeSize := 2000, homeTemperature := 72, location := 1
    timeAway := "08:00", timeHome := "17:00", savingsLevel := 2 }

/-- A freshly initialized, unauthenticated coordinator (the `__init__`
defaults: no results, no custom schedule, mode `"cool"`,
`_last_update_time = 0`). -/
def exampleState : CoordinatorState :=
  { config := exampleConfig
    optimization_results := none
    schedule_data := none
    daily_schedule := none
    custom_temperature_schedule := none
    optimization_mode := "cool"
    last_update_time := 0
    user_id := none
    auth_token := none
    heat_up_rate := HEATING_RATE_30MIN
    cool_down_rate := COOLING_RATE_30MIN
    backend_heating_rate := none
    backend_cooling_rate := none
    backend_natural_rate := none }

/-! ## Helper lemmas -/

/-- The thermal-rate fetch touches only the five rate fields. -/
theorem fetchThermalRates_preserves (st : CoordinatorState) (r : RatesOutcome) :
    (fetchThermalRatesFromBackend st r).config = st.config ∧
    (fetchThermalRatesFromBackend st r).optimization_results = st.optimization_results ∧
    (fetchThermalRatesFromBackend st r).schedule_data = st.schedule_data ∧
    (fetchThermalRatesFromBackend st r).daily_schedule = st.daily_schedule ∧
    (fetchThermalRatesFromBackend st r).custom_temperature_schedule
      = st.custom_temperature_schedule ∧
    (fetchThermalRatesFromBackend st r).optimization_mode = st.optimization_mode ∧
    (fetchThermalRatesFromBackend st r).last_update_time = st.last_update_time := by
  unfold fetchThermalRatesFromBackend
  split
  · exact ⟨rfl, rfl, rfl, rfl, rfl, rfl, rfl⟩
  · cases r <;> exact ⟨rfl, rfl, rfl, rfl, rfl, rfl, rfl⟩

/-- The refresh never touches the config, the custom schedule, the mode, or
the debounce timestamp. -/
theorem asyncUpdateData_preserves (st : CoordinatorState) (r : RatesOutcome)
    (o : OptimizerOutcome) :
    (asyncUpdateData st r o).1.config = st.config ∧
    (asyncUpdateData st r o).1.custom_temperature_schedule
      = st.custom_temperature_schedule ∧
    (asyncUpdateData st r o).1.optimization_mode = st.optimization_mode ∧
    (asyncUpdateData st r o).1.last_update_time = st.last_update_time := by
  obtain ⟨h1, _, _, _, h5, h6, h7⟩ := fetchThermalRates_preserves st r
  unfold asyncUpdateData
  cases o with
  | transportError => exact ⟨h1, h5, h6, h7⟩
  | httpError => exact ⟨h1, h5, h6, h7⟩
  | ok body => cases body with
    | notDict => exact ⟨h1, h5, h6, h7⟩
    | dict hourly best => exact ⟨h1, h5, h6, h7⟩

/-- `True` exactly for the optimizer-call outcomes that `_async_update_data`
turns into an `UpdateFailed`: transport error, a status rejected by
`raise_for_status`, or a body that is not a mapping. -/
def optimizerCallFailed : OptimizerOutcome → Bool
  | .transportError => true
  | .httpError => true
  | .ok .notDict => true
  | .ok (.dict _ _) => false

/-! ## Claim C1 -/

/-- Claim C1: whenever the optimizer call fails (transport error, rejected
HTTP status, or a non-mapping body), `refresh()` raises a refresh failure
(`UpdateFailed`), and the previously stored optimization result, the
hourly-temperature sequence, and the daily best-setpoint sequence are all
left unchanged. -/
theorem claim_C1 (st : CoordinatorState) (r : RatesOutcome) (o : OptimizerOutcome)
    (hfail : optimizerCallFailed o = true) :
    (∃ msg, (asyncUpdateData st r o).2.2 = .error msg) ∧
    (asyncUpdateData st r o).1.optimization_results = st.optimization_results ∧
    (asyncUpdateData st r o).1.schedule_data = st.schedule_data ∧
    (asyncUpdateData st r o).1.daily_schedule = st.daily_schedule := by
  obtain ⟨_, h2, h3, h4, _, _, _⟩ := fetchThermalRates_preserves st r
  unfold asyncUpdateData
  cases o with
  | transportError => exact ⟨⟨_, rfl⟩, h2, h3, h4⟩
  | httpError => exact ⟨⟨_, rfl⟩, h2, h3, h4⟩
  | ok body => cases body with
    | notDict => exact ⟨⟨_, rfl⟩, h2, h3, h4⟩
    | dict hourly best => simp [optimizerCallFailed] at hfail

/-- Concrete run of `claim_C1`: a transport error on a fresh coordinator. -/
theorem claim_C1_witness :
    optimizerCallFailed .transportError = true ∧
    ((∃ msg, (asyncUpdateData exampleState .failed .transportError).2.2 = .error msg) ∧
     (asyncUpdateData exampleState .failed .transportError).1.optimization_results
       = exampleState.optimization_results ∧
     (asyncUpdateData exampleState .failed .transportError).1.schedule_data
       = exampleState.schedule_data ∧
     (asyncUpdateData exampleState .failed .transportError).1.daily_schedule
       = exampleState.daily_schedule) :=
  ⟨by decide, claim_C1 exampleState .failed .transportError (by decide)⟩

/-! ## Claim C2 -/

/-- Claim C2: a call to the debounced update gate at time `now` is admitted
iff `now - last_accepted ≥ 2` seconds; an admitted call records `now` as the
new last-accepted timestamp; a rejected call returns without error and
leaves the whole coordinator state unchanged. Concretely, from a fresh
state, calls at 100s and 101s yield (admitted, rejected) and a third call at
102.1s (2.1s after the first) is admitted. -/
theorem claim_C2 :
    (∀ (st : CoordinatorState) (d : UpdatePatch) (now : ℚ) (r : RatesOutcome)
        (o : OptimizerOutcome),
      ((asyncUpdateSchedule st d now r o).2 ≠ .rejected ↔
        2 ≤ now - st.last_update_time) ∧
      (now - st.last_update_time < 2 →
        asyncUpdateSchedule st d now r o = (st, .rejected)) ∧
      (2 ≤ now - st.last_update_time →
        (asyncUpdateSchedule st d now r o).1.last_update_time = now)) ∧
    ((asyncUpdateSchedule exampleState emptyPatch 100 .failed .transportError).2
        ≠ .rejected ∧
     (asyncUpdateSchedule
        (asyncUpdateSchedule exampleState emptyPatch 100 .failed .transportError).1
        emptyPatch 101 .failed .transportError).2 = .rejected ∧
     (asyncUpdateSchedule
        (asyncUpdateSchedule
          (asyncUpdateSchedule exampleState emptyPatch 100 .failed .transportError).1
          emptyPatch 101 .failed .transportError).1
        emptyPatch (1021/10) .failed .transportError).2 ≠ .rejected) := by
  have huniv : ∀ (st : CoordinatorState) (d : UpdatePatch) (now : ℚ)
      (r : RatesOutcome) (o : OptimizerOutcome),
      ((asyncUpdateSchedule st d now r o).2 ≠ .rejected ↔
        2 ≤ now - st.last_update_time) ∧
      (now - st.last_update_time < 2 →
        asyncUpdateSchedule st d now r o = (st, .rejected)) ∧
      (2 ≤ now - st.last_update_time →
        (asyncUpdateSchedule st d now r o).1.last_update_time = now) := by
    intro st d now r o
    by_cases h : now - st.last_update_time < 2
    · refine ⟨⟨fun hne => absurd ?_ hne, fun hle => absurd hle (not_le.mpr h)⟩,
        fun _ => ?_, fun h2 => absurd h (not_lt.mpr h2)⟩
      · show (asyncUpdateSchedule st d now r o).2 = .rejected
        simp [asyncUpdateSchedule, if_pos h]
      · simp [asyncUpdateSchedule, if_pos h]
    · refine ⟨⟨fun _ => not_lt.mp h, fun _ => ?_⟩,
        fun hlt => absurd hlt h, fun _ => ?_⟩
      · show (asyncUpdateSchedule st d now r o).2 ≠ .rejected
        simp [asyncUpdateSchedule, if_neg h]
      · show (asyncUpdateSchedule st d now r o).1.last_update_time = now
        simp only [asyncUpdateSchedule, if_neg h]
        rw [(asyncUpdateData_preserves _ r o).2.2.2]
  have hts : (asyncUpdateSchedule exampleState emptyPatch 100 .failed
      .transportError).1.last_update_time = 100 :=
    (huniv exampleState emptyPatch 100 .failed .transportError).2.2
      (by norm_num [exampleState])
  have hrej :
      asyncUpdateSchedule
        (asyncUpdateSchedule exampleState emptyPatch 100 .failed .transportError).1
        emptyPatch 101 .failed .transportError
      = ((asyncUpdateSchedule exampleState emptyPatch 100 .failed
          .transportError).1, .rejected) :=
    (huniv _ emptyPatch 101 .failed .transportError).2.1 (by rw [hts]; norm_num)
  refine ⟨huniv, ?_, ?_, ?_⟩
  · exact (huniv exampleState emptyPatch 100 .failed .transportError).1.mpr
      (by norm_num [exampleState])
  · exact congrArg Prod.snd hrej
  · refine (huniv _ emptyPatch (1021/10) .failed .transportError).1.mpr ?_
    rw [congrArg Prod.fst hrej, hts]
    norm_num

/-- Concrete run of `claim_C2`: the first call of the sequence is admitted
and records its timestamp. -/
theorem claim_C2_witness :
    2 ≤ (100 : ℚ) - exampleState.last_update_time ∧
    (asyncUpdateSchedule exampleState emptyPatch 100 .failed
        .transportError).1.last_update_time = 100 :=
  ⟨by norm_num [exampleState],
   (claim_C2.1 exampleState emptyPatch 100 .failed .transportError).2.2
     (by norm_num [exampleState])⟩

/-! ## Claim C3 -/

/-- Indexing a mapped range. -/
theorem getD_range_map {α : Type} (f : Nat → α) (n i : Nat) (d : α) (h : i < n) :
    ((List.range n).map f).getD i d = f i := by
  rw [List.getD_eq_getElem?_getD, List.getElem?_map, List.getElem?_range h]
  rfl

/-- The savings offset is always strictly positive. -/
theorem calculateSavingsOffset_pos (lvl : Int) : 0 < calculateSavingsOffset lvl := by
  unfold calculateSavingsOffset
  split_ifs <;> norm_num

/-- The high-temperature list of the built schedule, as a mapped range. -/
theorem build_high_eq (cfg : Config) :
    (build30MinTemperatureSchedule cfg).highTemperatures =
      (List.range INTERVALS_PER_DAY).map (fun i =>
        if timeTo30MinIndex cfg.timeAway ≤ i ∧ i ≤ timeTo30MinIndex cfg.timeHome
        then cfg.homeTemperature + calculateSavingsOffset cfg.savingsLevel + DEADBAND_OFFSET
        else cfg.homeTemperature + DEADBAND_OFFSET) := rfl

/-- The low-temperature list of the built schedule, as a mapped range. -/
theorem build_low_eq (cfg : Config) :
    (build30MinTemperatureSchedule cfg).lowTemperatures =
      (List.range INTERVALS_PER_DAY).map (fun i =>
        if timeTo30MinIndex cfg.timeAway ≤ i ∧ i ≤ timeTo30MinIndex cfg.timeHome
        then cfg.homeTemperature - calculateSavingsOffset cfg.savingsLevel - DEADBAND_OFFSET
        else cfg.homeTemperature - DEADBAND_OFFSET) := rfl

/-- Slot `i` of the high-temperature list. -/
theorem build_high_getD (cfg : Config) (i : Nat) (h : i < 48) :
    (build30MinTemperatureSchedule cfg).highTemperatures.getD i 0 =
      (if timeTo30MinIndex cfg.timeAway ≤ i ∧ i ≤ timeTo30MinIndex cfg.timeHome
       then cfg.homeTemperature + calculateSavingsOffset cfg.savingsLevel + DEADBAND_OFFSET
       else cfg.homeTemperature + DEADBAND_OFFSET) := by
  rw [build_high_eq]
  exact getD_range_map _ INTERVALS_PER_DAY i 0 h

/-- Slot `i` of the low-temperature list. -/
theorem build_low_getD (cfg : Config) (i : Nat) (h : i < 48) :
    (build30MinTemperatureSchedule cfg).lowTemperatures.getD i 0 =
      (if timeTo30MinIndex cfg.timeAway ≤ i ∧ i ≤ timeTo30MinIndex cfg.timeHome
       then cfg.homeTemperature - calculateSavingsOffset cfg.savingsLevel - DEADBAND_OFFSET
       else cfg.homeTemperature - DEADBAND_OFFSET) := by
  rw [build_low_eq]
  exact getD_range_map _ INTERVALS_PER_DAY i 0 h

/-- Claim C3: for preferences with valid `HH:MM` away/home times, `build()`
produces exactly 48 high and 48 low entries with `low[i] ≤ high[i]`
everywhere; slots in the inclusive `[away, home]` range get
`base ± (savings_offset + 1.4)` (savings offset 2/6/12 for levels 1/2/3,
else 6), all other slots get `base ± 1.4`, and when `away > home` every slot
gets the home values. Concretely, for `timeAway="08:00"`,
`timeHome="17:00"`, base 72, savings level 2: slots 16-34 have
high `= 79.4 = 397/5` and low `= 64.6 = 323/5`, and slot 0 has
high `= 73.4 = 367/5` and low `= 70.6 = 353/5`. -/
theorem claim_C3 (cfg : Config)
    (hA : (parseHHMM (cfg.timeAway.take 5)).isSome)
    (hB : (parseHHMM (cfg.timeHome.take 5)).isSome) :
    (build30MinTemperatureSchedule cfg).highTemperatures.length = 48 ∧
    (build30MinTemperatureSchedule cfg).lowTemperatures.length = 48 ∧
    (∀ i, i < 48 →
      (build30MinTemperatureSchedule cfg).lowTemperatures.getD i 0 ≤
        (build30MinTemperatureSchedule cfg).highTemperatures.getD i 0) ∧
    (∀ i, i < 48 → timeTo30MinIndex cfg.timeAway ≤ i →
      i ≤ timeTo30MinIndex cfg.timeHome →
      (build30MinTemperatureSchedule cfg).highTemperatures.getD i 0 =
        cfg.homeTemperature + calculateSavingsOffset cfg.savingsLevel
          + DEADBAND_OFFSET ∧
      (build30MinTemperatureSchedule cfg).lowTemperatures.getD i 0 =
        cfg.homeTemperature - calculateSavingsOffset cfg.savingsLevel
          - DEADBAND_OFFSET) ∧
    (∀ i, i < 48 →
      (i < timeTo30MinIndex cfg.timeAway ∨ timeTo30MinIndex cfg.timeHome < i) →
      (build30MinTemperatureSchedule cfg).highTemperatures.getD i 0 =
        cfg.homeTemperature + DEADBAND_OFFSET ∧
      (build30MinTemperatureSchedule cfg).lowTemperatures.getD i 0 =
        cfg.homeTemperature - DEADBAND_OFFSET) ∧
    (timeTo30MinIndex cfg.timeHome < timeTo30MinIndex cfg.timeAway →
      ∀ i, i < 48 →
      (build30MinTemperatureSchedule cfg).highTemperatures.getD i 0 =
        cfg.homeTemperature + DEADBAND_OFFSET ∧
      (build30MinTemperatureSchedule cfg).lowTemperatures.getD i 0 =
        cfg.homeTemperature - DEADBAND_OFFSET) ∧
    (calculateSavingsOffset 1 = 2 ∧ calculateSavingsOffset 2 = 6 ∧
     calculateSavingsOffset 3 = 12 ∧
     ∀ lvl : Int, lvl ≠ 1 → lvl ≠ 2 → lvl ≠ 3 → calculateSavingsOffset lvl = 6) ∧
    (∀ i, 16 ≤ i → i ≤ 34 →
      (build30MinTemperatureSchedule exampleConfig).highTemperatures.getD i 0
        = 397/5 ∧
      (build30MinTemperatureSchedule exampleConfig).lowTemperatures.getD i 0
        = 323/5) ∧
    (build30MinTemperatureSchedule exampleConfig).highTemperatures.getD 0 0
      = 367/5 ∧
    (build30MinTemperatureSchedule exampleConfig).lowTemperatures.getD 0 0
      = 353/5 := by
  have hdb : (0:ℚ) < DEADBAND_OFFSET := by norm_num [DEADBAND_OFFSET]
  have hin : ∀ (c : Config) i, i < 48 → timeTo30MinIndex c.timeAway ≤ i →
      i ≤ timeTo30MinIndex c.timeHome →
      (build30MinTemperatureSchedule c).highTemperatures.getD i 0 =
        c.homeTemperature + calculateSavingsOffset c.savingsLevel
          + DEADBAND_OFFSET ∧
      (build30MinTemperatureSchedule c).lowTemperatures.getD i 0 =
        c.homeTemperature - calculateSavingsOffset c.savingsLevel
          - DEADBAND_OFFSET := by
    intro c i h h1 h2
    rw [build_high_getD c i h, build_low_getD c i h, if_pos ⟨h1, h2⟩,
      if_pos ⟨h1, h2⟩]
    exact ⟨rfl, rfl⟩
  have hout : ∀ (c : Config) i, i < 48 →
      (i < timeTo30MinIndex c.timeAway ∨ timeTo30MinIndex c.timeHome < i) →
      (build30MinTemperatureSchedule c).highTemperatures.getD i 0 =
        c.homeTemperature + DEADBAND_OFFSET ∧
      (build30MinTemperatureSchedule c).lowTemperatures.getD i 0 =
        c.homeTemperature - DEADBAND_OFFSET := by
    intro c i h hcase
    have hneg : ¬ (timeTo30MinIndex c.timeAway ≤ i ∧
        i ≤ timeTo30MinIndex c.timeHome) := by
      rcases hcase with h' | h' <;> omega
    rw [build_high_getD c i h, build_low_getD c i h, if_neg hneg, if_neg hneg]
    exact ⟨rfl, rfl⟩
  have hAwayEx : timeTo30MinIndex exampleConfig.timeAway = 16 := by decide
  have hHomeEx : timeTo30MinIndex exampleConfig.timeHome = 34 := by decide
  have hOffEx : calculateSavingsOffset exampleConfig.savingsLevel = 6 := rfl
  refine ⟨?_, ?_, ?_, hin cfg, hout cfg, ?_, ?_, ?_, ?_, ?_⟩
  · rw [build_high_eq]
    simp [INTERVALS_PER_DAY]
  · rw [build_low_eq]
    simp [INTERVALS_PER_DAY]
  · intro i h
    have hoff := calculateSavingsOffset_pos cfg.savingsLevel
    rw [build_high_getD cfg i h, build_low_getD cfg i h]
    split_ifs <;> linarith
  · intro hlt i h
    exact hout cfg i h (by omega)
  · refine ⟨rfl, rfl, rfl, ?_⟩
    intro lvl h1 h2 h3
    unfold calculateSavingsOffset
    rw [if_neg h1, if_neg h2, if_neg h3]
  · intro i h16 h34
    have h48 : i < 48 := by omega
    obtain ⟨hh, hl⟩ := hin exampleConfig i h48 (by omega) (by omega)
    rw [hh, hl, hOffEx]
    norm_num [exampleConfig, DEADBAND_OFFSET]
  · obtain ⟨hh, _⟩ := hout exampleConfig 0 (by norm_num) (by omega)
    rw [hh]
    norm_num [exampleConfig, DEADBAND_OFFSET]
  · obtain ⟨_, hl⟩ := hout exampleConfig 0 (by norm_num) (by omega)
    rw [hl]
    norm_num [exampleConfig, DEADBAND_OFFSET]

/-- Concrete run of `claim_C3` at the example preferences. -/
theorem claim_C3_witness :
    (parseHHMM (exampleConfig.timeAway.take 5)).isSome ∧
    (parseHHMM (exampleConfig.timeHome.take 5)).isSome ∧
    (build30MinTemperatureSchedule exampleConfig).highTemperatures.length = 48 :=
  ⟨by decide, by decide, (claim_C3 exampleConfig (by decide) (by decide)).1⟩

/-! ## Collector fixtures -/

/-- A sample reading with index `n` (to keep fixture readings distinct). -/
def rd (n : Nat) : Reading :=
  { timestamp := "t", indoor_temp := n, indoor_humidity := none
    hvac_mode := some "cool", hvac_state := "OFF", fan_mode := none
    fan_state := none, target_temp := 72, optimization_mode := "cool" }

/-- A collector holding three buffered readings. -/
def exampleCollector : CollectorState :=
  { user_id := "user-1", pending_readings := [rd 1, rd 2, rd 3]
    user_inputs_today := [] }

/-- A collector with an empty buffer. -/
def emptyCollector : CollectorState :=
  { user_id := "user-1", pending_readings := [], user_inputs_today := [] }

/-- A logged user action. -/
def exampleInput : UserInput :=
  { timestamp := "2025-01-01T08:00:00", service := "update_schedule", data := [] }

/-- A collector with one logged user action and an empty reading buffer. -/
def collectorWithInput : CollectorState :=
  { user_id := "user-1", pending_readings := []
    user_inputs_today := [exampleInput] }

/-- `True` exactly for the upload outcomes `_send_sensor_batch` treats as
failure: any exception, or any status other than 200. -/
def uploadFailed : HttpOutcome → Bool
  | .transportError => true
  | .status code => code != 200

/-! ## Claim C4 -/

/-- Claim C4: a failed batch upload (non-200 status or transport error)
leaves every buffered reading in place (and the whole collector state
unchanged), and a subsequent successful upload sends exactly the retained
readings plus any appended since in one request, then clears the buffer. -/
theorem claim_C4 (st : CollectorState) (o : HttpOutcome) (extra : List Reading)
    (hne : st.pending_readings ≠ []) (hfail : uploadFailed o = true) :
    (sendSensorBatch st o).1 = st ∧
    (sendSensorBatch
        { (sendSensorBatch st o).1 with
          pending_readings := (sendSensorBatch st o).1.pending_readings ++ extra }
        (.status 200)).2
      = some { user_id := st.user_id, readings := st.pending_readings ++ extra } ∧
    (sendSensorBatch
        { (sendSensorBatch st o).1 with
          pending_readings := (sendSensorBatch st o).1.pending_readings ++ extra }
        (.status 200)).1.pending_readings = [] := by
  have hie : st.pending_readings.isEmpty = false := by
    simp [List.isEmpty_iff, hne]
  have hfirst : (sendSensorBatch st o).1 = st := by
    cases o with
    | transportError => simp [sendSensorBatch, hie]
    | status code =>
        have hcode : code ≠ 200 := by simpa [uploadFailed] using hfail
        simp [sendSensorBatch, hie, hcode]
  rw [hfirst]
  have hie2 : (st.pending_readings ++ extra).isEmpty = false := by
    cases hp : st.pending_readings with
    | nil => exact absurd hp hne
    | cons a t => simp [hp]
  exact ⟨rfl, by simp [sendSensorBatch, hie2], by simp [sendSensorBatch, hie2]⟩

/-- Concrete run of `claim_C4`: three buffered readings survive an HTTP 500
upload. -/
theorem claim_C4_witness :
    exampleCollector.pending_readings ≠ [] ∧
    uploadFailed (.status 500) = true ∧
    (sendSensorBatch exampleCollector (.status 500)).1 = exampleCollector :=
  ⟨by decide, by decide,
   (claim_C4 exampleCollector (.status 500) [] (by decide) (by decide)).1⟩

/-! ## Claim C5 -/

/-- Claim C5 (code bug): the day's logged-actions list is never cleared by
`_send_daily_summary` — both return statements precede the
`user_inputs_today.clear()` on line 277, so even a successful send (which
returns the thermal-rates payload) leaves the list unchanged, contradicting
the intended clear-on-success. -/
theorem claim_C5 :
    (sendDailySummary collectorWithInput .transportError (.status 200 [])).2
      = some [] ∧
    (sendDailySummary collectorWithInput .transportError
        (.status 200 [])).1.user_inputs_today = [exampleInput] ∧
    (∀ (st : CollectorState) (fo : HttpOutcome) (so : SummaryOutcome),
      (sendDailySummary st fo so).1.user_inputs_today = st.user_inputs_today) := by
  have hbatch : ∀ (st : CollectorState) (o : HttpOutcome),
      (sendSensorBatch st o).1.user_inputs_today = st.user_inputs_today := by
    intro st o
    unfold sendSensorBatch
    split
    · rfl
    · cases o with
      | transportError => rfl
      | status code =>
          by_cases hc : code = 200 <;> simp [hc]
  have hgen : ∀ (st : CollectorState) (fo : HttpOutcome) (so : SummaryOutcome),
      (sendDailySummary st fo so).1.user_inputs_today = st.user_inputs_today := by
    intro st fo so
    unfold sendDailySummary
    cases so with
    | transportError =>
        split
        · rfl
        · exact hbatch st fo
    | status code thermal =>
        by_cases hc : code = 200 <;>
          simp only [hc, if_pos, if_neg, reduceIte] <;>
          · split
            · rfl
            · exact hbatch st fo
  refine ⟨rfl, ?_, hgen⟩
  rw [hgen]
  rfl

/-! ## Claim C10 -/

/-- Claim C10: when the pending-readings buffer is empty, a batch upload
(hourly, or the forced flush at the start of the daily summary) issues no
request, raises no error, and leaves the collector state unchanged. -/
theorem claim_C10 (st : CollectorState) (o fo : HttpOutcome) (so : SummaryOutcome)
    (h : st.pending_readings = []) :
    sendSensorBatch st o = (st, none) ∧
    (sendDailySummary st fo so).1 = st := by
  have hie : st.pending_readings.isEmpty = true := by simp [h]
  constructor
  · simp [sendSensorBatch, hie]
  · cases so with
    | transportError => simp [sendDailySummary, hie]
    | status code thermal =>
        by_cases hc : code = 200 <;> simp [sendDailySummary, hie, hc]

/-- Concrete run of `claim_C10`: an empty buffer and a would-be upload. -/
theorem claim_C10_witness :
    emptyCollector.pending_readings = [] ∧
    sendSensorBatch emptyCollector .transportError = (emptyCollector, none) :=
  ⟨rfl,
   (claim_C10 emptyCollector .transportError .transportError
     (.status 200 []) rfl).1⟩

/-! ## Claim C6 -/

/-- Claim C6 counterexample: a 2xx response whose mapping body is missing
both expected fields is accepted by `refresh()` — no failure is raised and
empty sequences are stored — whereas the claim says a mapping missing the
expected fields is also treated as a failure. -/
theorem claim_C6_counterexample :
    (asyncUpdateData exampleState .failed (.ok (.dict none none))).2.2
      = Except.ok (ResponseBody.dict none none) ∧
    (asyncUpdateData exampleState .failed
        (.ok (.dict none none))).1.schedule_data = some [] ∧
    (asyncUpdateData exampleState .failed
        (.ok (.dict none none))).1.daily_schedule = some [] :=
  ⟨rfl, rfl, rfl⟩

/-- Claim C6 (amended): with a 2xx status, `refresh()` fails exactly when
the body is not a mapping; a mapping body always succeeds, storing
`data.get("HourlyTemperature", [])` and `data.get("bestTempActual", [])`,
which are the empty sequences when the fields are missing. -/
theorem claim_C6 (st : CoordinatorState) (r : RatesOutcome) :
    (∃ msg, (asyncUpdateData st r (.ok .notDict)).2.2 = .error msg) ∧
    ∀ (hourly best : Option (List JValue)),
      (asyncUpdateData st r (.ok (.dict hourly best))).2.2
        = .ok (.dict hourly best) ∧
      (asyncUpdateData st r (.ok (.dict hourly best))).1.schedule_data
        = some (hourly.getD []) ∧
      (asyncUpdateData st r (.ok (.dict hourly best))).1.daily_schedule
        = some (best.getD []) :=
  ⟨⟨_, rfl⟩, fun _ _ => ⟨rfl, rfl, rfl⟩⟩

/-! ## Claim C7 -/

/-- A service-call patch carrying an unparseable `timeAway`. -/
def garbagePatch : UpdatePatch := { emptyPatch with timeAway := some "garbage" }

/-- Claim C7 counterexample: an admitted preference update carrying the
unparseable `timeAway` value `"garbage"` completes without any failure and
silently stores the truncation `"garba"` (itself unparseable) in the
preferences — whereas the claim says such a value propagates as a failure
rather than being silently coerced or truncated into the stored
preferences. -/
theorem claim_C7_counterexample :
    (asyncUpdateSchedule exampleState garbagePatch 100 .failed .transportError).2
      ≠ .rejected ∧
    (asyncUpdateSchedule exampleState garbagePatch 100 .failed
        .transportError).1.config.timeAway = "garba" ∧
    parseHHMM "garba" = none := by
  have hgate : ¬ ((100:ℚ) - exampleState.last_update_time < 2) := by
    norm_num [exampleState]
  refine ⟨?_, ?_, by decide⟩
  · show (asyncUpdateSchedule exampleState garbagePatch 100 .failed
      .transportError).2 ≠ .rejected
    simp [asyncUpdateSchedule, if_neg hgate]
  · show (asyncUpdateSchedule exampleState garbagePatch 100 .failed
      .transportError).1.config.timeAway = "garba"
    simp only [asyncUpdateSchedule, if_neg hgate]
    rw [(asyncUpdateData_preserves _ _ _).1]
    rfl

/-- Claim C7 (amended): malformed time strings never raise anywhere: during
schedule building an unparseable string falls back to slot 16, and during an
admitted preference update a supplied `timeAway` is truncated to its first
five characters and stored silently — the call completes (is not rejected
and raises nothing from the merge) regardless of the value's
well-formedness. -/
theorem claim_C7 (st : CoordinatorState) (d : UpdatePatch) (now : ℚ)
    (r : RatesOutcome) (o : OptimizerOutcome) (ta : String)
    (hAdm : 2 ≤ now - st.last_update_time) (hta : d.timeAway = some ta) :
    (∀ s : String, parseHHMM (s.take 5) = none → timeTo30MinIndex s = 16) ∧
    (asyncUpdateSchedule st d now r o).2 ≠ .rejected ∧
    (asyncUpdateSchedule st d now r o).1.config.timeAway = ta.take 5 := by
  have hgate : ¬ (now - st.last_update_time < 2) := not_lt.mpr hAdm
  refine ⟨fun s hs => ?_, ?_, ?_⟩
  · unfold timeTo30MinIndex
    rw [hs]
  · show (asyncUpdateSchedule st d now r o).2 ≠ .rejected
    simp [asyncUpdateSchedule, if_neg hgate]
  · show (asyncUpdateSchedule st d now r o).1.config.timeAway = ta.take 5
    simp only [asyncUpdateSchedule, if_neg hgate]
    rw [(asyncUpdateData_preserves _ _ _).1]
    simp [applyPatch, hta]

/-- Concrete run of `claim_C7`: the `"garbage"` patch stores `"garba"`. -/
theorem claim_C7_witness :
    2 ≤ (100:ℚ) - exampleState.last_update_time ∧
    garbagePatch.timeAway = some "garbage" ∧
    (asyncUpdateSchedule exampleState garbagePatch 100 .failed
        .transportError).1.config.timeAway = "garbage".take 5 :=
  ⟨by norm_num [exampleState], rfl,
   (claim_C7 exampleState garbagePatch 100 .failed .transportError "garbage"
     (by norm_num [exampleState]) rfl).2.2⟩

/-! ## Claim C8 -/

/-- Claim C8: on every admitted preference update, the stored custom
envelope becomes exactly the patch's `temperatureSchedule` field — replaced
when the field is present, cleared (`None`) when absent — and when absent
the next refresh derives the basic envelope from the (patched)
preferences. -/
theorem claim_C8 (st : CoordinatorState) (d : UpdatePatch) (now : ℚ)
    (r : RatesOutcome) (o : OptimizerOutcome)
    (hAdm : 2 ≤ now - st.last_update_time) :
    (asyncUpdateSchedule st d now r o).1.custom_temperature_schedule
      = d.temperatureSchedule ∧
    (d.temperatureSchedule = none →
      envelopeForRequest (asyncUpdateSchedule st d now r o).1
        = build30MinTemperatureSchedule
            (asyncUpdateSchedule st d now r o).1.config) := by
  have hgate : ¬ (now - st.last_update_time < 2) := not_lt.mpr hAdm
  have hcustom : (asyncUpdateSchedule st d now r o).1.custom_temperature_schedule
      = d.temperatureSchedule := by
    simp only [asyncUpdateSchedule, if_neg hgate]
    rw [(asyncUpdateData_preserves _ _ _).2.1]
  refine ⟨hcustom, fun hnone => ?_⟩
  unfold envelopeForRequest
  rw [hcustom, hnone]

/-- Concrete run of `claim_C8`: a patch without `temperatureSchedule` clears
the custom envelope. -/
theorem claim_C8_witness :
    2 ≤ (100:ℚ) - exampleState.last_update_time ∧
    (asyncUpdateSchedule exampleState emptyPatch 100 .failed
        .transportError).1.custom_temperature_schedule
      = emptyPatch.temperatureSchedule :=
  ⟨by norm_num [exampleState],
   (claim_C8 exampleState emptyPatch 100 .failed .transportError
     (by norm_num [exampleState])).1⟩

/-! ## Claim C9 -/

/-- A coordinator holding a two-element raw schedule array. -/
def boundsState : CoordinatorState :=
  { exampleState with schedule_data := some [JValue.num 1, JValue.num 2] }

/-- A coordinator holding a three-element raw schedule array with envelope
echoes at positions 1 and 2. -/
def boundsState3 : CoordinatorState :=
  { exampleState with
    schedule_data := some [JValue.num 0, JValue.arr [79], JValue.arr [64]] }

/-- Claim C9 counterexample: with exactly two elements stored,
`get_schedule_bounds()` returns `None` — whereas the claim says `None` is
returned exactly when fewer than two elements are present. -/
theorem claim_C9_counterexample :
    boundsState.schedule_data = some [JValue.num 1, JValue.num 2] ∧
    getScheduleBounds boundsState = none :=
  ⟨rfl, rfl⟩

/-- Claim C9 (amended): `get_schedule_bounds()` returns `None` exactly when
no array is stored or the stored array has fewer than three elements;
otherwise it returns the pair at fixed positions 1 and 2. -/
theorem claim_C9 (st : CoordinatorState) :
    (st.schedule_data = none → getScheduleBounds st = none) ∧
    (∀ xs, st.schedule_data = some xs →
      (xs.length < 3 → getScheduleBounds st = none) ∧
      (∀ a b c rest, xs = a :: b :: c :: rest →
        getScheduleBounds st = some (b, c))) := by
  constructor
  · intro h
    unfold getScheduleBounds
    rw [h]
  · intro xs hxs
    constructor
    · intro hlen
      unfold getScheduleBounds
      rw [hxs]
      rcases xs with _ | ⟨a, _ | ⟨b, _ | ⟨c, t⟩⟩⟩
      · rfl
      · rfl
      · rfl
      · simp at hlen
        omega
    · intro a b c rest hshape
      unfold getScheduleBounds
      rw [hxs, hshape]

/-- Concrete run of `claim_C9`: a three-element array yields the pair at
positions 1 and 2. -/
theorem claim_C9_witness :
    boundsState3.schedule_data
      = some [JValue.num 0, JValue.arr [79], JValue.arr [64]] ∧
    getScheduleBounds boundsState3 = some (JValue.arr [79], JValue.arr [64]) :=
  ⟨rfl, ((claim_C9 boundsState3).2 _ rfl).2 _ _ _ _ rfl⟩

end CurveControl
